import Mathlib

/-!
Verification of the Monitoring-FYP telemetry pipeline.

The definitions below are a shallow embedding of the Python sources:
* `src/monitoringAgent.py` — the central collector: SQLite-backed state
  (`metrics`, `events`, `metric_state` tables, modelled as lists), the metric
  threshold alerting state machine `handle_metric`, and the `/ingest` endpoint.
* `src/agent_linux.py` — the Linux agent's journal line classifier, username/IP
  extraction, identity correlation and logind logout dedup
  (`parse_journalctl_events`).
* `src/win11agent.py` — the Windows agent's OpenSSH message parser, the
  loopback/absent source-IP filter, and the offset-checkpointed file tailer
  `read_file_new_lines`.

Numeric metric values (Python floats holding percentages) are modelled as
exact rationals; timestamps are opaque `Nat`/`String` parameters; message
strings are built as in the source except that the trailing formatted numeric
value (Python `f"...: {value:.1f}%"`) is omitted, since no property depends
on it.  Python truthiness of optional strings (`None` and `""` falsy) is
modelled by `pyTruthy`/`pyOrStr`.
-/

/-- Python `abs` on exact rationals. -/
def ratAbs (q : ℚ) : ℚ := if q < 0 then -q else q

/-- Python truthiness of an optional string (`None` and `""` are falsy). -/
def pyTruthy : Option String → Bool
  | none => false
  | some s => s ≠ ""

/-- Python `a or b` for an optional string `a` and a string default `b`. -/
def pyOrStr (a : Option String) (b : String) : String :=
  match a with
  | some s => if s = "" then b else s
  | none => b

/-- Python `str.lower()` (ASCII, as in the log lines handled here). -/
def lowerStr (s : String) : String := String.mk (s.toList.map Char.toLower)

/-- Python `str.upper()`. -/
def upperStr (s : String) : String := String.mk (s.toList.map Char.toUpper)

/-- Python `str.strip()`. -/
def trimL (l : List Char) : List Char :=
  ((l.dropWhile Char.isWhitespace).reverse.dropWhile Char.isWhitespace).reverse

/-- Python `str.strip()` on `String`. -/
def trimStr (s : String) : String := String.mk (trimL s.toList)

/-- Substring test on character lists (Python's `pat in hay`). -/
def charListContains (hay pat : List Char) : Bool :=
  hay.tails.any (fun t => pat.isPrefixOf t)

/-- Python `pat in s` substring containment. -/
def strContains (s pat : String) : Bool := charListContains s.toList pat.toList

/-!  ## Collector database model (`monitoringAgent.py`)

The three SQLite tables are modelled as lists; `metric_state` has primary key
`(host, kind)` and is accessed through lookup/upsert helpers mirroring
`_get_metric_state` / `_set_metric_state`. -/

/-- One `metric_state` row: `status` (`"high"`/`"normal"`), `last_value`
(nullable REAL), `updated_ts`. -/
structure MRow where
  status : String
  last_value : Option ℚ
  updated_ts : Nat
deriving DecidableEq

/-- One `events` row (the alert feed): host, level, message. -/
structure EventRow where
  host : String
  level : String
  message : String
deriving DecidableEq

/-- One `metrics` row (a resource snapshot). -/
structure MetricsRow where
  host : String
  os : String
  cpu : ℚ
  mem : ℚ
  disk : ℚ
  net_up : ℚ
  net_down : ℚ
  ip : String
deriving DecidableEq

/-- The collector's persistent store: the three tables of `init_db`. -/
structure DB where
  metrics : List MetricsRow
  events : List EventRow
  metric_state : List ((String × String) × MRow)
deriving DecidableEq

/-- A freshly initialised database. -/
def emptyDB : DB := ⟨[], [], []⟩

/-- `SELECT ... FROM metric_state WHERE host=? AND kind=?` (primary-key lookup). -/
def lookupState : List ((String × String) × MRow) → String × String → Option MRow
  | [], _ => none
  | (k, r) :: rest, key => if k = key then some r else lookupState rest key

/-- `INSERT ... ON CONFLICT(host,kind) DO UPDATE` upsert on the keyed list. -/
def upsertState : List ((String × String) × MRow) → String × String → MRow →
    List ((String × String) × MRow)
  | [], key, r => [(key, r)]
  | (k, r0) :: rest, key, r =>
    if k = key then (key, r) :: rest else (k, r0) :: upsertState rest key r

/-- `_get_metric_state`: returns `("normal", None)` when no row exists. -/
def get_metric_state (d : DB) (host kind : String) : String × Option ℚ :=
  match lookupState d.metric_state (host, kind) with
  | none => ("normal", none)
  | some r => (r.status, r.last_value)

/-- `_set_metric_state`: upsert of the `(host, kind)` row. -/
def set_metric_state (d : DB) (host kind status : String) (last_value : Option ℚ)
    (now : Nat) : DB :=
  { d with metric_state := upsertState d.metric_state (host, kind) ⟨status, last_value, now⟩ }

/-- `INSERT INTO events(host,level,message) VALUES(?,?,?)`. -/
def insertEvent (d : DB) (host level message : String) : DB :=
  { d with events := d.events ++ [⟨host, level, message⟩] }

/-- `METRIC_DELTA_RESEND = 5.0` from `monitoringAgent.py`. -/
def METRIC_DELTA_RESEND : ℚ := 5

/-- `CPU_TH = 80.0`. -/
def CPU_TH : ℚ := 80

/-- `MEM_TH = 80.0`. -/
def MEM_TH : ℚ := 80

/-- `DISK_TH = 80.0`. -/
def DISK_TH : ℚ := 80

/-- `API_KEY` shared secret from `monitoringAgent.py`. -/
def API_KEY : String := "CHANGE_ME_SUPER_SECRET"

/-- Keys of the `LOCAL_TI` trusted-IP table. -/
def LOCAL_TI_keys : List String := ["10.10.1.5", "10.10.1.6", "10.10.1.10"]

/-- `handle_metric` from `monitoringAgent.py` (lines 127-163): the hysteresis
alerting state machine.  The four sequential early-return `if` blocks of the
source become an `if`/`else` chain; the trailing formatted numeric value of
each message is omitted. -/
def handle_metric (d : DB) (host host_ip kind : String) (value threshold : ℚ)
    (now : Nat) : DB :=
  if threshold ≤ value ∧ (get_metric_state d host kind).1 ≠ "high" then
    set_metric_state
      (insertEvent d host "critical"
        (upperStr kind ++ " high on " ++ host ++ " (" ++ host_ip ++ ")"))
      host kind "high" (some value) now
  else if threshold ≤ value ∧ (get_metric_state d host kind).1 = "high" then
    match (get_metric_state d host kind).2 with
    | none =>
      set_metric_state
        (insertEvent d host "critical"
          (upperStr kind ++ " still high on " ++ host ++ " (" ++ host_ip ++ ")"))
        host kind "high" (some value) now
    | some prev_value =>
      if METRIC_DELTA_RESEND ≤ ratAbs (value - prev_value) then
        set_metric_state
          (insertEvent d host "critical"
            (upperStr kind ++ " still high on " ++ host ++ " (" ++ host_ip ++ ")"))
          host kind "high" (some value) now
      else d
  else if ¬ threshold ≤ value ∧ (get_metric_state d host kind).1 = "high" then
    set_metric_state
      (insertEvent d host "info"
        (upperStr kind ++ " back to normal on " ++ host ++ " (" ++ host_ip ++ ")"))
      host kind "normal" (some value) now
  else
    set_metric_state d host kind "normal" (some value) now

/-- The events appended by a database transformation (the rows inserted after
the rows of `d`). -/
def newEvents (d d' : DB) : List EventRow := d'.events.drop d.events.length

/-- Runs `handle_metric` over a value sequence for one `(host, kind)` pair,
pairing each value with the events its evaluation emitted. -/
def metricTrace (host host_ip kind : String) (threshold : ℚ) (now : Nat) :
    DB → List ℚ → List (ℚ × List String)
  | _, [] => []
  | d, v :: rest =>
    (v, (newEvents d (handle_metric d host host_ip kind v threshold now)).map EventRow.level)
      :: metricTrace host host_ip kind threshold now
          (handle_metric d host host_ip kind v threshold now) rest

theorem drop_length_append {α : Type _} (l₁ l₂ : List α) :
    (l₁ ++ l₂).drop l₁.length = l₂ := by
  induction l₁ with
  | nil => rfl
  | cons a t ih =>
    simp only [List.cons_append, List.length_cons, List.drop_succ_cons]
    exact ih

theorem newEvents_insert (d : DB) (host level message hostK kindK statusK : String)
    (lv : Option ℚ) (now : Nat) :
    newEvents d (set_metric_state (insertEvent d host level message) hostK kindK statusK lv now)
      = [⟨host, level, message⟩] := by
  simp [newEvents, set_metric_state, insertEvent, drop_length_append]

theorem newEvents_set (d : DB) (hostK kindK statusK : String) (lv : Option ℚ) (now : Nat) :
    newEvents d (set_metric_state d hostK kindK statusK lv now) = [] := by
  simp [newEvents, set_metric_state]

/-- C1: for one fixed `(host, kind)` pair with fixed threshold and
resend delta 5, `handle_metric` emits exactly one critical alert on each
transition from non-high status to `value ≥ threshold`; while the status is
`high` it emits a further critical alert exactly when the absolute deviation
from the stored `last_value` is `≥ 5`; it emits exactly one info recovery
alert on each transition from `high` to `value < threshold`; and it emits
nothing otherwise.  The value sequence `70, 82, 84, 90, 78` against threshold
`80` emits exactly three alerts: critical at `82`, critical at `90`, info
at `78`. -/
theorem C1_handle_metric_emissions (host host_ip kind : String) (threshold : ℚ) (now : Nat) :
    ((∀ (d : DB) (v : ℚ), (get_metric_state d host kind).1 ≠ "high" → threshold ≤ v →
        (newEvents d (handle_metric d host host_ip kind v threshold now)).map EventRow.level
          = ["critical"])
      ∧ (∀ (d : DB) (v : ℚ), (get_metric_state d host kind).1 ≠ "high" → v < threshold →
        (newEvents d (handle_metric d host host_ip kind v threshold now)).map EventRow.level
          = [])
      ∧ (∀ (d : DB) (v lv : ℚ), get_metric_state d host kind = ("high", some lv) →
        threshold ≤ v → METRIC_DELTA_RESEND ≤ ratAbs (v - lv) →
        (newEvents d (handle_metric d host host_ip kind v threshold now)).map EventRow.level
          = ["critical"])
      ∧ (∀ (d : DB) (v lv : ℚ), get_metric_state d host kind = ("high", some lv) →
        threshold ≤ v → ratAbs (v - lv) < METRIC_DELTA_RESEND →
        (newEvents d (handle_metric d host host_ip kind v threshold now)).map EventRow.level
          = [])
      ∧ (∀ (d : DB) (v : ℚ), (get_metric_state d host kind).1 = "high" → v < threshold →
        (newEvents d (handle_metric d host host_ip kind v threshold now)).map EventRow.level
          = ["info"]))
    ∧ metricTrace "srv" "10.10.1.10" "cpu" 80 0 emptyDB [70, 82, 84, 90, 78]
        = [(70, []), (82, ["critical"]), (84, []), (90, ["critical"]), (78, ["info"])] := by
  constructor
  · refine ⟨?_, ?_, ?_, ?_, ?_⟩
    · intro d v h1 h2
      rw [handle_metric, if_pos ⟨h2, h1⟩, newEvents_insert]
      rfl
    · intro d v h1 h2
      rw [handle_metric, if_neg (fun hc => absurd hc.1 (not_le.mpr h2)),
        if_neg (fun hc => absurd hc.1 (not_le.mpr h2)),
        if_neg (fun hc => absurd hc.2 h1), newEvents_set]
      rfl
    · intro d v lv hs h2 h3
      rw [handle_metric, hs]
      rw [if_neg (by simp), if_pos ⟨h2, rfl⟩]
      simp only [if_pos h3]
      rw [newEvents_insert]
      rfl
    · intro d v lv hs h2 h3
      rw [handle_metric, hs]
      rw [if_neg (by simp), if_pos ⟨h2, rfl⟩]
      simp only [if_neg (not_le.mpr h3)]
      simp [newEvents]
    · intro d v h1 h2
      rw [handle_metric, if_neg (fun hc => absurd hc.1 (not_le.mpr h2)),
        if_neg (fun hc => absurd hc.1 (not_le.mpr h2)),
        if_pos ⟨not_le.mpr h2, h1⟩, newEvents_insert]
      rfl
  · norm_num [metricTrace, handle_metric, get_metric_state, set_metric_state, insertEvent,
      lookupState, upsertState, newEvents, emptyDB, ratAbs, METRIC_DELTA_RESEND]
    decide

/-- Witness for C1: from a fresh state, value 82 against threshold 80 emits one
critical alert. -/
theorem C1_witness :
    (newEvents emptyDB (handle_metric emptyDB "srv" "10.10.1.10" "cpu" 82 80 0)).map
      EventRow.level = ["critical"] :=
  (C1_handle_metric_emissions "srv" "10.10.1.10" "cpu" 80 0).1.1 emptyDB 82
    (by decide) (by decide)

/-- C3: when the stored status for `(host, kind)` is `high` and the new value
is still at or above the threshold but deviates from the stored `last_value`
by less than the resend delta, `handle_metric` emits nothing and leaves the
whole database — in particular the `metric_state` row with its `status`,
`last_value` and `updated_ts` — completely unchanged. -/
theorem C3_handle_metric_skip_frame (d : DB) (host host_ip kind : String)
    (v lv threshold : ℚ) (ts now : Nat)
    (hrow : lookupState d.metric_state (host, kind) = some ⟨"high", some lv, ts⟩)
    (hhigh : threshold ≤ v)
    (hdelta : ratAbs (v - lv) < METRIC_DELTA_RESEND) :
    handle_metric d host host_ip kind v threshold now = d ∧
    newEvents d (handle_metric d host host_ip kind v threshold now) = [] := by
  have hs : get_metric_state d host kind = ("high", some lv) := by
    rw [get_metric_state, hrow]
  have hmain : handle_metric d host host_ip kind v threshold now = d := by
    rw [handle_metric, hs]
    rw [if_neg (by simp), if_pos ⟨hhigh, rfl⟩]
    simp only [if_neg (not_le.mpr hdelta)]
  exact ⟨hmain, by rw [hmain]; simp [newEvents]⟩

/-- Witness for C3: status high with stored value 82, new value 84 (delta 2):
nothing is emitted and the state row is untouched. -/
theorem C3_witness :
    handle_metric ⟨[], [], [(("srv", "cpu"), ⟨"high", some 82, 7⟩)]⟩
        "srv" "10.10.1.10" "cpu" 84 80 9
      = ⟨[], [], [(("srv", "cpu"), ⟨"high", some 82, 7⟩)]⟩ :=
  (C3_handle_metric_skip_frame ⟨[], [], [(("srv", "cpu"), ⟨"high", some 82, 7⟩)]⟩
    "srv" "10.10.1.10" "cpu" 84 82 80 7 9 (by decide) (by decide)
    (by norm_num [ratAbs, METRIC_DELTA_RESEND])).1

/-! ## The `/ingest` endpoint (`monitoringAgent.py`, lines 167-270)

A request carries an optional `X-API-Key` header, a JSON payload and the
transport-level remote address.  The payload is modelled with the fields the
endpoint reads; `none` stands for an absent (or `null`) key, and numeric
fields already hold the result of `_f` coercion, with `none` for
absent/malformed values (both default to `0`). -/

/-- One raw auth event of the submission, as read by the coordinator
(`evt.get("type")`, `evt.get("src_ip")`). -/
structure AuthEvtIn where
  type : Option String
  src_ip : Option String
deriving DecidableEq

/-- The `meta` sub-object fields used by the endpoint. -/
structure MetaIn where
  hostname : Option String
  ip : Option String
  os : Option String
deriving DecidableEq

/-- The `resources` sub-object fields used by the endpoint. -/
structure ResourcesIn where
  cpu_percent : Option ℚ
  ram_percent : Option ℚ
  disk_percent : Option ℚ
deriving DecidableEq

/-- The `network.total` sub-object fields used by the endpoint. -/
structure NetTotalIn where
  bytes_sent : Option ℚ
  bytes_recv : Option ℚ
deriving DecidableEq

/-- The ingest payload: nested-shape keys (`meta`/`resources`/`network`),
the flat-shape keys, and the auth-event list. -/
structure Payload where
  meta : Option MetaIn
  resources : Option ResourcesIn
  network_total : Option NetTotalIn
  auth_events : List AuthEvtIn
  host : Option String
  os : Option String
  src_ip : Option String
  cpu : Option ℚ
  mem : Option ℚ
  disk : Option ℚ
  net_up : Option ℚ
  net_down : Option ℚ
  event_msg : Option String
  event_level : Option String
deriving DecidableEq

/-- The endpoint's HTTP outcome. -/
inductive IngestResp where
  | unauthorized
  | okMeta
  | okFlat
deriving DecidableEq

/-- The body of the nested branch's auth-event loop (lines 207-237): an event
with an absent/empty `type` is skipped; otherwise it is mapped to a level and
message and inserted into `events`. -/
def processAuthEvent (d : DB) (host host_ip event_time : String) (evt : AuthEvtIn) : DB :=
  let etype := trimStr (lowerStr (pyOrStr evt.type ""))
  if etype = "" then d
  else
    let attacker_ip := trimStr (pyOrStr evt.src_ip "unknown")
    let status_tag := if attacker_ip ∈ LOCAL_TI_keys then "(Local)" else "(TI)"
    let lv : String × String :=
      if etype = "successful_login" then ("critical", "Successful SSH login")
      else if etype = "failed_login" then ("warning", "Failed SSH login")
      else if etype = "logout" then ("warning", "SSH logout")
      else ("info", "Auth event (" ++ etype ++ ")")
    let msg := "[" ++ upperStr lv.1 ++ "] " ++ status_tag ++ " " ++ lv.2 ++ " from "
      ++ attacker_ip ++ " (attacker_user) at " ++ event_time ++ " to ip " ++ host_ip
      ++ " (target_user)"
    insertEvent d host lv.1 msg

/-- The auth-event loop of the nested branch (`for evt in auth_events`). -/
def ingestAuthLoop (host host_ip event_time : String) : List AuthEvtIn → DB → DB
  | [], d => d
  | evt :: rest, d =>
    ingestAuthLoop host host_ip event_time rest (processAuthEvent d host host_ip event_time evt)

/-- The nested (`meta`/`resources`) branch of `ingest` (lines 175-240):
persist the snapshot, evaluate the three metrics, then process the auth
events. -/
def ingestMeta (p : Payload) (remote_addr : Option String) (event_time : String)
    (now : Nat) (d : DB) : DB :=
  let meta := p.meta.getD ⟨none, none, none⟩
  let resources := p.resources.getD ⟨none, none, none⟩
  let total := p.network_total.getD ⟨none, none⟩
  let host := pyOrStr meta.hostname (p.host.getD "unknown")
  let osname := pyOrStr meta.os (p.os.getD "unknown")
  let host_ip := pyOrStr meta.ip (pyOrStr p.src_ip (pyOrStr remote_addr "unknown"))
  let cpu := resources.cpu_percent.getD 0
  let mem := resources.ram_percent.getD 0
  let disk := resources.disk_percent.getD 0
  let net_up := total.bytes_sent.getD 0
  let net_down := total.bytes_recv.getD 0
  let d1 : DB := { d with metrics := d.metrics ++ [⟨host, osname, cpu, mem, disk, net_up, net_down, host_ip⟩] }
  let d2 := handle_metric d1 host host_ip "cpu" cpu CPU_TH now
  let d3 := handle_metric d2 host host_ip "mem" mem MEM_TH now
  let d4 := handle_metric d3 host host_ip "disk" disk DISK_TH now
  ingestAuthLoop host host_ip event_time p.auth_events d4

/-- The flat branch of `ingest` (lines 243-270). -/
def ingestFlat (p : Payload) (remote_addr : Option String) (now : Nat) (d : DB) : DB :=
  let host := p.host.getD "unknown"
  let osname := p.os.getD "unknown"
  let cpu := p.cpu.getD 0
  let mem := p.mem.getD 0
  let disk := p.disk.getD 0
  let net_up := p.net_up.getD 0
  let net_down := p.net_down.getD 0
  let host_ip := pyOrStr p.src_ip (pyOrStr remote_addr "unknown")
  let d1 : DB := { d with metrics := d.metrics ++ [⟨host, osname, cpu, mem, disk, net_up, net_down, host_ip⟩] }
  let d2 := handle_metric d1 host host_ip "cpu" cpu CPU_TH now
  let d3 := handle_metric d2 host host_ip "mem" mem MEM_TH now
  let d4 := handle_metric d3 host host_ip "disk" disk DISK_TH now
  if pyTruthy p.event_msg then
    insertEvent d4 host (p.event_level.getD "info") (pyOrStr p.event_msg "")
  else d4

/-- `ingest` (lines 167-270): reject unless the `X-API-Key` header equals
`API_KEY`; otherwise dispatch on the payload shape. -/
def ingest (apiKey : Option String) (p : Payload) (remote_addr : Option String)
    (event_time : String) (now : Nat) (d : DB) : IngestResp × DB :=
  if apiKey ≠ some API_KEY then (IngestResp.unauthorized, d)
  else if p.meta.isSome || p.resources.isSome then
    (IngestResp.okMeta, ingestMeta p remote_addr event_time now d)
  else
    (IngestResp.okFlat, ingestFlat p remote_addr now d)

/-- An auth event is well-formed for the coordinator when its normalised
`type` is non-empty (`if not etype: continue` skips the rest). -/
def authEvtGood (evt : AuthEvtIn) : Bool :=
  trimStr (lowerStr (pyOrStr evt.type "")) ≠ ""

theorem processAuthEvent_skip (d : DB) (host host_ip event_time : String) (evt : AuthEvtIn)
    (h : authEvtGood evt = false) :
    processAuthEvent d host host_ip event_time evt = d := by
  rw [processAuthEvent]
  simp only [authEvtGood, ne_eq, decide_not, Bool.not_eq_false', decide_eq_true_eq] at h
  simp [h]

theorem processAuthEvent_metrics (d : DB) (host host_ip event_time : String) (evt : AuthEvtIn) :
    (processAuthEvent d host host_ip event_time evt).metrics = d.metrics ∧
    (processAuthEvent d host host_ip event_time evt).metric_state = d.metric_state := by
  rw [processAuthEvent]
  by_cases h : trimStr (lowerStr (pyOrStr evt.type "")) = "" <;> simp [h, insertEvent]

theorem ingestAuthLoop_filter (host host_ip event_time : String) (es : List AuthEvtIn) (d : DB) :
    ingestAuthLoop host host_ip event_time es d
      = ingestAuthLoop host host_ip event_time (es.filter authEvtGood) d := by
  induction es generalizing d with
  | nil => rfl
  | cons e rest ih =>
    by_cases h : authEvtGood e
    · simp only [ingestAuthLoop, List.filter_cons, h, if_true]
      exact ih _
    · have hf : authEvtGood e = false := by simpa using h
      simp only [ingestAuthLoop, List.filter_cons, hf, Bool.false_eq_true, if_false,
        processAuthEvent_skip _ _ _ _ _ hf]
      exact ih _

theorem ingestAuthLoop_frame (host host_ip event_time : String) (es : List AuthEvtIn) (d : DB) :
    (ingestAuthLoop host host_ip event_time es d).metrics = d.metrics ∧
    (ingestAuthLoop host host_ip event_time es d).metric_state = d.metric_state := by
  induction es generalizing d with
  | nil => exact ⟨rfl, rfl⟩
  | cons e rest ih =>
    simp only [ingestAuthLoop]
    refine ⟨?_, ?_⟩
    · rw [(ih (processAuthEvent d host host_ip event_time e)).1,
        (processAuthEvent_metrics d host host_ip event_time e).1]
    · rw [(ih (processAuthEvent d host host_ip event_time e)).2,
        (processAuthEvent_metrics d host host_ip event_time e).2]

/-- C2: in the nested payload shape, a malformed auth event (one whose
`type` is absent or empty, so it fails the level/message mapping) is skipped
with no other effect: the submission behaves exactly as if the malformed
items were removed, and the metric snapshot row and the three metric-state
evaluations are independent of the auth-event list entirely. -/
theorem C2_ingest_partial_failure (apiKey : Option String) (p : Payload)
    (remote_addr : Option String) (event_time : String) (now : Nat) (d : DB)
    (hshape : (p.meta.isSome || p.resources.isSome) = true) :
    ingest apiKey p remote_addr event_time now d
      = ingest apiKey { p with auth_events := p.auth_events.filter authEvtGood }
          remote_addr event_time now d
    ∧ (ingest apiKey p remote_addr event_time now d).2.metrics
      = (ingest apiKey { p with auth_events := [] } remote_addr event_time now d).2.metrics
    ∧ (ingest apiKey p remote_addr event_time now d).2.metric_state
      = (ingest apiKey { p with auth_events := [] } remote_addr event_time now d).2.metric_state := by
  by_cases hk : apiKey ≠ some API_KEY
  · simp [ingest, hk]
  · refine ⟨?_, ?_, ?_⟩
    · simp only [ingest, if_neg hk]
      rw [if_pos hshape, if_pos hshape]
      simp only [ingestMeta]
      exact congrArg (Prod.mk IngestResp.okMeta) (ingestAuthLoop_filter _ _ _ _ _)
    · simp only [ingest, if_neg hk]
      rw [if_pos hshape, if_pos hshape]
      simp only [ingestMeta]
      rw [(ingestAuthLoop_frame _ _ _ _ _).1]
      rfl
    · simp only [ingest, if_neg hk]
      rw [if_pos hshape, if_pos hshape]
      simp only [ingestMeta]
      rw [(ingestAuthLoop_frame _ _ _ _ _).2]
      rfl

/-- Witness for C2: a nested submission whose auth batch holds one malformed
event (empty type) between two well-formed ones behaves exactly like the
submission with the malformed event removed. -/
theorem C2_witness :
    ingest (some API_KEY)
        { meta := some ⟨some "web1", some "10.10.1.6", some "linux"⟩,
          resources := some ⟨some 42, some 55, some 61⟩,
          network_total := some ⟨some 100, some 200⟩,
          auth_events := [⟨some "failed_login", some "9.9.9.9"⟩, ⟨some "", none⟩,
                          ⟨some "logout", some "9.9.9.9"⟩],
          host := none, os := none, src_ip := none, cpu := none, mem := none,
          disk := none, net_up := none, net_down := none, event_msg := none,
          event_level := none }
        (some "10.10.1.6") "2025-01-01 10:00:00" 0 emptyDB
      = ingest (some API_KEY)
        { meta := some ⟨some "web1", some "10.10.1.6", some "linux"⟩,
          resources := some ⟨some 42, some 55, some 61⟩,
          network_total := some ⟨some 100, some 200⟩,
          auth_events := List.filter authEvtGood
            [⟨some "failed_login", some "9.9.9.9"⟩, ⟨some "", none⟩,
             ⟨some "logout", some "9.9.9.9"⟩],
          host := none, os := none, src_ip := none, cpu := none, mem := none,
          disk := none, net_up := none, net_down := none, event_msg := none,
          event_level := none }
        (some "10.10.1.6") "2025-01-01 10:00:00" 0 emptyDB :=
  (C2_ingest_partial_failure (some API_KEY)
    { meta := some ⟨some "web1", some "10.10.1.6", some "linux"⟩,
      resources := some ⟨some 42, some 55, some 61⟩,
      network_total := some ⟨some 100, some 200⟩,
      auth_events := [⟨some "failed_login", some "9.9.9.9"⟩, ⟨some "", none⟩,
                      ⟨some "logout", some "9.9.9.9"⟩],
      host := none, os := none, src_ip := none, cpu := none, mem := none,
      disk := none, net_up := none, net_down := none, event_msg := none,
      event_level := none }
    (some "10.10.1.6") "2025-01-01 10:00:00" 0 emptyDB (by decide)).1

/-- C9: a request whose `X-API-Key` header is absent or differs from the
shared secret is rejected as unauthorized and has no effect at all on the
database: no metrics row, no events row and no metric-state change. -/
theorem C9_ingest_unauthorized (apiKey : Option String) (p : Payload)
    (remote_addr : Option String) (event_time : String) (now : Nat) (d : DB)
    (h : apiKey ≠ some API_KEY) :
    ingest apiKey p remote_addr event_time now d = (IngestResp.unauthorized, d) := by
  simp [ingest, h]

/-- Witness for C9: a keyless request against a fresh database is rejected and
leaves the database empty. -/
theorem C9_witness :
    ingest none
        { meta := none, resources := none, network_total := none, auth_events := [],
          host := none, os := none, src_ip := none, cpu := none, mem := none,
          disk := none, net_up := none, net_down := none, event_msg := none,
          event_level := none }
        none "" 0 emptyDB = (IngestResp.unauthorized, emptyDB) :=
  C9_ingest_unauthorized none _ none "" 0 emptyDB (by decide)

/-! ## Linux agent (`agent_linux.py`)

The journal line pipeline: regex-based IP / username extraction, the
classification `if`-chain, identity correlation through the process-wide
`LAST_AUTH_USERNAME` / `LAST_AUTH_IP` memory, sshd-over-logind logout
precedence, and per-session logout dedup.  The regexes of the source are
small enough to be implemented as deterministic scanners: each one's
backtracking is forced (maximal runs), which the definitions mirror. -/

/-- `re.search` leftmost-match scanning: try the matcher at every start
position, leftmost first. -/
def scanFind {α : Type _} (f : List Char → Option α) : List Char → Option α
  | [] => f []
  | c :: rest =>
    match f (c :: rest) with
    | some r => some r
    | none => scanFind f rest

/-- One `\d{1,3}\.` group of the IPv4 pattern: a maximal digit run of length
1-3 followed by a literal dot (the run being maximal, regex backtracking
cannot choose a shorter one). -/
def matchOctetDot (l : List Char) : Option (List Char × List Char) :=
  let ds := l.takeWhile Char.isDigit
  if 1 ≤ ds.length ∧ ds.length ≤ 3 ∧ (l.drop ds.length).head? = some '.' then
    some (ds ++ ['.'], l.drop (ds.length + 1))
  else none

/-- The IPv4-shaped pattern `(\d{1,3}\.){3}\d{1,3}` anchored at the start of
`l`; the final greedy `\d{1,3}` takes up to three digits. -/
def matchIpAt (l : List Char) : Option String :=
  match matchOctetDot l with
  | none => none
  | some (g1, r1) =>
    match matchOctetDot r1 with
    | none => none
    | some (g2, r2) =>
      match matchOctetDot r2 with
      | none => none
      | some (g3, r3) =>
        let ds := r3.takeWhile Char.isDigit
        if ds.isEmpty then none
        else some (String.mk (g1 ++ g2 ++ g3 ++ ds.take 3))

/-- `extract_ip`: `IP_RE.search(line)`, the first IPv4-shaped token. -/
def extract_ip (line : String) : Option String :=
  scanFind matchIpAt line.toList

/-- A literal pattern followed by a captured `(\S+)` token, anchored at the
start of `l`. -/
def matchTokenAfter (lit : List Char) (l : List Char) : Option String :=
  if lit.isPrefixOf l then
    let tok := (l.drop lit.length).takeWhile (fun c => !c.isWhitespace)
    if tok.isEmpty then none else some (String.mk tok)
  else none

/-- A literal pattern followed by `(\S+)\s+from`, anchored at the start of
`l`: the captured token is a maximal non-space run, then at least one
whitespace character, then the literal `from`. -/
def matchTokenFromAfter (lit : List Char) (l : List Char) : Option String :=
  if lit.isPrefixOf l then
    let r1 := l.drop lit.length
    let tok := r1.takeWhile (fun c => !c.isWhitespace)
    let r2 := r1.drop tok.length
    let ws := r2.takeWhile Char.isWhitespace
    let r3 := r2.drop ws.length
    if !tok.isEmpty && !ws.isEmpty && "from".toList.isPrefixOf r3 then
      some (String.mk tok)
    else none
  else none

/-- `re.search` for `lit(\S+)`. -/
def tokenAfterLit (line lit : String) : Option String :=
  scanFind (matchTokenAfter lit.toList) line.toList

/-- `re.search` for `lit(\S+)\s+from`. -/
def tokenFromAfterLit (line lit : String) : Option String :=
  scanFind (matchTokenFromAfter lit.toList) line.toList

/-- `extract_username`: the source's ordered pattern list, first match wins. -/
def extract_username (line : String) : Option String :=
  tokenAfterLit line "Failed password for invalid user "
    <|> tokenFromAfterLit line "Failed password for "
    <|> tokenFromAfterLit line "Accepted password for "
    <|> tokenAfterLit line "session opened for user "
    <|> tokenAfterLit line "session closed for user "
    <|> tokenAfterLit line "for user "

/-- A regex word character (`\w`): alphanumeric or underscore. -/
def isWordChar (c : Char) : Bool := c.isAlphanum || c = '_'

/-- Whether a character list starts with a word character (for `\b`). -/
def headIsWord : List Char → Bool
  | [] => false
  | c :: _ => isWordChar c

/-- The pattern `\bsession\s+(\d+)\b` anchored at the start of `l`, given
whether the previous character was a word character.  The whitespace and
digit runs are maximal, which regex backtracking forces here. -/
def matchSessionAt (prevIsWord : Bool) (l : List Char) : Option String :=
  if !prevIsWord && "session".toList.isPrefixOf l then
    let r1 := l.drop 7
    let ws := r1.takeWhile Char.isWhitespace
    let r2 := r1.drop ws.length
    let ds := r2.takeWhile Char.isDigit
    let r3 := r2.drop ds.length
    if !ws.isEmpty && !ds.isEmpty && !headIsWord r3 then some (String.mk ds)
    else none
  else none

/-- Scanner for `\bsession\s+(\d+)\b`, tracking the previous character for
the word boundary. -/
def findSessionGo : Bool → List Char → Option String
  | _, [] => none
  | prevW, c :: rest =>
    match matchSessionAt prevW (c :: rest) with
    | some s => some s
    | none => findSessionGo (isWordChar c) rest

/-- `re.search(r"\bsession\s+(\d+)\b", lower)`: the embedded numeric session
identifier of a logind line. -/
def findSessionId (lower : String) : Option String :=
  findSessionGo false lower.toList

/-- The sshd-loop classification `if`-chain of `parse_journalctl_events`
(lines 140-154): fixed priority failed > accepted > session-termination. -/
def classify_ssh_line (line : String) : Option String :=
  let lower := lowerStr line
  if strContains lower "failed password" || strContains lower "invalid user" then
    some "failed_login"
  else if strContains lower "accepted password" || strContains lower "accepted publickey" then
    some "successful_login"
  else if strContains lower "session closed for user" || strContains lower "disconnected from"
      || strContains lower "received disconnect" || strContains lower "session closed" then
    some "logout"
  else none

/-- The process-wide `LAST_AUTH_USERNAME` / `LAST_AUTH_IP` identity memory. -/
structure Mem where
  lastUser : Option String
  lastIp : Option String
deriving DecidableEq

/-- One emitted auth event (`{"type", "username", "src_ip", "raw"}`). -/
structure AEvent where
  type : String
  username : Option String
  src_ip : Option String
  raw : String
deriving DecidableEq

/-- Lines 159-177 of `parse_journalctl_events` for one already-classified
record: login records overwrite the memory fieldwise; a logout record sets
`saw_sshd_logout` and substitutes memory values for missing fields. -/
def sshRecordStep (m : Mem) (saw : Bool) (ev_type : String)
    (username src_ip : Option String) (raw : String) : Mem × Bool × AEvent :=
  if ev_type = "successful_login" ∨ ev_type = "failed_login" then
    (⟨if pyTruthy username then username else m.lastUser,
      if pyTruthy src_ip then src_ip else m.lastIp⟩, saw,
     ⟨ev_type, username, src_ip, raw⟩)
  else if ev_type = "logout" then
    (m, true,
     ⟨ev_type,
      if !pyTruthy username && pyTruthy m.lastUser then m.lastUser else username,
      if !pyTruthy src_ip && pyTruthy m.lastIp then m.lastIp else src_ip, raw⟩)
  else (m, saw, ⟨ev_type, username, src_ip, raw⟩)

/-- Accumulator of the sshd loop: memory, `saw_sshd_logout`, `seen_raw`,
and the events list. -/
structure SshAcc where
  mem : Mem
  saw : Bool
  seenRaw : List String
  events : List AEvent
deriving DecidableEq

/-- One iteration of the sshd loop: whole-line dedup, classification,
extraction, correlation. -/
def processSshLine (acc : SshAcc) (line : String) : SshAcc :=
  if line ∈ acc.seenRaw then acc
  else
    let seen' := acc.seenRaw ++ [line]
    match classify_ssh_line line with
    | none => { acc with seenRaw := seen' }
    | some t =>
      let stepped := sshRecordStep acc.mem acc.saw t (extract_username line) (extract_ip line) line
      ⟨stepped.1, stepped.2.1, seen', acc.events ++ [stepped.2.2]⟩

/-- The sshd loop over the window's ssh/sshd lines. -/
def sshPhase : List String → SshAcc → SshAcc
  | [], acc => acc
  | line :: rest, acc => sshPhase rest (processSshLine acc line)

/-- Accumulator of the logind loop: shared `seen_raw`, `seen_sessions`, and
the events list. -/
structure LogindAcc where
  seenRaw : List String
  seenSessions : List String
  events : List AEvent
deriving DecidableEq

/-- One iteration of the logind loop (lines 188-208): whole-line dedup, the
logout-marker test, session-id dedup, and emission of a logout event filled
from the identity memory. -/
def processLogindLine (m : Mem) (acc : LogindAcc) (line : String) : LogindAcc :=
  if line ∈ acc.seenRaw then acc
  else
    let seen' := acc.seenRaw ++ [line]
    let lower := lowerStr line
    if strContains lower "session"
        && (strContains lower "logged out" || strContains lower "removed"
            || strContains lower "closed") then
      match findSessionId lower with
      | some sid =>
        if sid ∈ acc.seenSessions then { acc with seenRaw := seen' }
        else
          ⟨seen', acc.seenSessions ++ [sid],
            acc.events ++ [⟨"logout", m.lastUser, m.lastIp, line⟩]⟩
      | none =>
        { acc with
          seenRaw := seen'
          events := acc.events ++ [⟨"logout", m.lastUser, m.lastIp, line⟩] }
    else { acc with seenRaw := seen' }

/-- The logind loop over the window's logind lines. -/
def logindPhase (m : Mem) : List String → LogindAcc → LogindAcc
  | [], acc => acc
  | line :: rest, acc => logindPhase m rest (processLogindLine m acc line)

/-- `parse_journalctl_events` over one collection window, given the identity
memory and the two line sources: the sshd loop always runs; the logind loop
runs only when the sshd loop saw no logout. -/
def parse_journalctl_events (m : Mem) (ssh_lines logind_lines : List String) :
    Mem × List AEvent :=
  let a := sshPhase ssh_lines ⟨m, false, [], []⟩
  if a.saw then (a.mem, a.events)
  else
    let b := logindPhase a.mem logind_lines ⟨a.seenRaw, [], a.events⟩
    (a.mem, b.events)

/-- An optional string is well-formed when it is not `some ""` — the form the
extractors produce (`None` or a non-empty token), under which Python
truthiness coincides with presence. -/
abbrev wfOpt (o : Option String) : Prop := o ≠ some ""

theorem pyTruthy_eq_isSome (o : Option String) (h : wfOpt o) :
    pyTruthy o = o.isSome := by
  cases o with
  | none => rfl
  | some s =>
    have hs : s ≠ "" := fun he => h (by rw [he])
    simp [pyTruthy, hs]

/-- C4: for every ordered window of classified records on one host, a
`successful_login` or `failed_login` record overwrites `last_username`
exactly when it carries a username and `last_source_ip` exactly when it
carries a source IP (independently, never clearing either), and a `logout`
record lacking a username or IP is emitted with the current memory values
substituted.  Concretely, a logout with no username/IP following a
successful login of `alice` from `10.0.0.5` in the same window is emitted
as `alice` / `10.0.0.5`. -/
theorem C4_identity_correlation :
    (∀ (m : Mem) (saw : Bool) (t : String) (u ip : Option String) (raw : String),
      t = "successful_login" ∨ t = "failed_login" → wfOpt u → wfOpt ip →
      (sshRecordStep m saw t u ip raw).1.lastUser = (if u.isSome then u else m.lastUser)
      ∧ (sshRecordStep m saw t u ip raw).1.lastIp = (if ip.isSome then ip else m.lastIp)
      ∧ (sshRecordStep m saw t u ip raw).2.2 = ⟨t, u, ip, raw⟩
      ∧ (sshRecordStep m saw t u ip raw).2.1 = saw)
    ∧ (∀ (m : Mem) (saw : Bool) (u ip : Option String) (raw : String),
      wfOpt u → wfOpt ip → wfOpt m.lastUser → wfOpt m.lastIp →
      (sshRecordStep m saw "logout" u ip raw).2.2.username = (if u.isSome then u else m.lastUser)
      ∧ (sshRecordStep m saw "logout" u ip raw).2.2.src_ip = (if ip.isSome then ip else m.lastIp)
      ∧ (sshRecordStep m saw "logout" u ip raw).1 = m
      ∧ (sshRecordStep m saw "logout" u ip raw).2.2.type = "logout"
      ∧ (sshRecordStep m saw "logout" u ip raw).2.2.raw = raw)
    ∧ (sshPhase ["Accepted password for alice from 10.0.0.5 port 22 ssh2",
                 "pam_unix(sshd:session): session closed"] ⟨⟨none, none⟩, false, [], []⟩).events
        = [⟨"successful_login", some "alice", some "10.0.0.5",
             "Accepted password for alice from 10.0.0.5 port 22 ssh2"⟩,
           ⟨"logout", some "alice", some "10.0.0.5",
             "pam_unix(sshd:session): session closed"⟩] := by
  refine ⟨?_, ?_, by decide⟩
  · intro m saw t u ip raw ht hu hip
    rw [sshRecordStep, if_pos ht]
    refine ⟨?_, ?_, rfl, rfl⟩
    · rw [pyTruthy_eq_isSome u hu]
    · rw [pyTruthy_eq_isSome ip hip]
  · intro m saw u ip raw hu hip hmu hmi
    rw [sshRecordStep, if_neg (by decide), if_pos rfl]
    refine ⟨?_, ?_, rfl, rfl, rfl⟩
    · rw [pyTruthy_eq_isSome u hu, pyTruthy_eq_isSome m.lastUser hmu]
      cases u with
      | none =>
        cases hm : m.lastUser with
        | none => simp
        | some s2 => simp
      | some s => simp
    · rw [pyTruthy_eq_isSome ip hip, pyTruthy_eq_isSome m.lastIp hmi]
      cases ip with
      | none =>
        cases hm : m.lastIp with
        | none => simp
        | some s2 => simp
      | some s => simp

/-- Witness for C4: a bare logout record after a login of `alice` from
`10.0.0.5` is emitted with both values substituted from memory. -/
theorem C4_witness :
    (sshRecordStep ⟨some "alice", some "10.0.0.5"⟩ false "logout" none none
        "session closed").2.2.username
      = (if (none : Option String).isSome then none
         else (Mem.mk (some "alice") (some "10.0.0.5")).lastUser) :=
  ((C4_identity_correlation).2.1 ⟨some "alice", some "10.0.0.5"⟩ false none none
    "session closed" (by decide) (by decide) (by decide) (by decide)).1

theorem sshRecordStep_saw (m : Mem) (saw : Bool) (t : String) (u ip : Option String)
    (raw : String) :
    ((sshRecordStep m saw t u ip raw).2.1 = true ↔ (saw = true ∨ t = "logout"))
    ∧ (sshRecordStep m saw t u ip raw).2.2.type = t := by
  rw [sshRecordStep]
  by_cases h1 : t = "successful_login" ∨ t = "failed_login"
  · rw [if_pos h1]
    refine ⟨?_, rfl⟩
    have ht : t ≠ "logout" := by rcases h1 with h | h <;> (subst h; decide)
    simp [ht]
  · rw [if_neg h1]
    by_cases h2 : t = "logout"
    · rw [if_pos h2]
      simp [h2]
    · rw [if_neg h2]
      simp [h2]

theorem processSshLine_saw_iff (acc : SshAcc) (line : String)
    (h : acc.saw = true ↔ ∃ e ∈ acc.events, e.type = "logout") :
    (processSshLine acc line).saw = true ↔
      ∃ e ∈ (processSshLine acc line).events, e.type = "logout" := by
  rw [processSshLine]
  by_cases hseen : line ∈ acc.seenRaw
  · rw [if_pos hseen]
    exact h
  · rw [if_neg hseen]
    cases hc : classify_ssh_line line with
    | none => exact h
    | some t =>
      have hs := sshRecordStep_saw acc.mem acc.saw t (extract_username line)
        (extract_ip line) line
      constructor
      · intro hsaw
        rcases hs.1.mp hsaw with hold | hlog
        · rcases h.mp hold with ⟨e, he, ht⟩
          exact ⟨e, by simp [he], ht⟩
        · exact ⟨(sshRecordStep acc.mem acc.saw t (extract_username line)
            (extract_ip line) line).2.2, by simp, by rw [hs.2, hlog]⟩
      · rintro ⟨e, he, ht⟩
        simp only [List.mem_append, List.mem_singleton] at he
        rcases he with he | he
        · exact hs.1.mpr (Or.inl (h.mpr ⟨e, he, ht⟩))
        · subst he
          exact hs.1.mpr (Or.inr (by rw [← hs.2]; exact ht))

theorem sshPhase_saw_iff (lines : List String) (acc : SshAcc)
    (h : acc.saw = true ↔ ∃ e ∈ acc.events, e.type = "logout") :
    (sshPhase lines acc).saw = true ↔
      ∃ e ∈ (sshPhase lines acc).events, e.type = "logout" := by
  induction lines generalizing acc with
  | nil => exact h
  | cons line rest ih => exact ih _ (processSshLine_saw_iff acc line h)

/-- C5: if the sshd source of a collection window produced at least one
logout event, the logind loop is skipped entirely, so the window's output is
exactly the sshd events — no logout from the session-manager source at all. -/
theorem C5_sshd_logout_suppresses_logind (m : Mem) (ssh_lines logind_lines : List String)
    (h : ∃ e ∈ (sshPhase ssh_lines ⟨m, false, [], []⟩).events, e.type = "logout") :
    parse_journalctl_events m ssh_lines logind_lines
      = ((sshPhase ssh_lines ⟨m, false, [], []⟩).mem,
         (sshPhase ssh_lines ⟨m, false, [], []⟩).events) := by
  have hsaw : (sshPhase ssh_lines ⟨m, false, [], []⟩).saw = true :=
    (sshPhase_saw_iff ssh_lines ⟨m, false, [], []⟩ (by simp)).mpr h
  rw [parse_journalctl_events]
  simp only [hsaw, if_true]

/-- Witness for C5: a window where sshd reported a disconnect and logind
reported a session removal keeps only the sshd events. -/
theorem C5_witness :
    parse_journalctl_events ⟨none, none⟩
        ["Disconnected from user alice 10.0.0.5 port 22"] ["Removed session 7."]
      = ((sshPhase ["Disconnected from user alice 10.0.0.5 port 22"]
            ⟨⟨none, none⟩, false, [], []⟩).mem,
         (sshPhase ["Disconnected from user alice 10.0.0.5 port 22"]
            ⟨⟨none, none⟩, false, [], []⟩).events) :=
  C5_sshd_logout_suppresses_logind ⟨none, none⟩
    ["Disconnected from user alice 10.0.0.5 port 22"] ["Removed session 7."] (by decide)

/-- Number of events whose raw line embeds the given numeric session id. -/
def logoutSessionCount (sid : String) (evs : List AEvent) : Nat :=
  evs.countP (fun e => decide (findSessionId (lowerStr e.raw) = some sid))

theorem logoutSessionCount_append (sid : String) (l₁ l₂ : List AEvent) :
    logoutSessionCount sid (l₁ ++ l₂)
      = logoutSessionCount sid l₁ + logoutSessionCount sid l₂ := by
  simp [logoutSessionCount, List.countP_append]

theorem processLogindLine_events_append (m : Mem) (acc : LogindAcc) (line : String) :
    ∃ s, (processLogindLine m acc line).events = acc.events ++ s := by
  rw [processLogindLine]
  by_cases h1 : line ∈ acc.seenRaw
  · rw [if_pos h1]
    exact ⟨[], by simp⟩
  · rw [if_neg h1]
    by_cases h2 : (strContains (lowerStr line) "session"
        && (strContains (lowerStr line) "logged out" || strContains (lowerStr line) "removed"
            || strContains (lowerStr line) "closed")) = true
    · rw [if_pos h2]
      cases hc : findSessionId (lowerStr line) with
      | some sid' =>
        simp only []
        by_cases h3 : sid' ∈ acc.seenSessions
        · rw [if_pos h3]
          exact ⟨[], by simp⟩
        · rw [if_neg h3]
          exact ⟨[⟨"logout", m.lastUser, m.lastIp, line⟩], rfl⟩
      | none => exact ⟨[⟨"logout", m.lastUser, m.lastIp, line⟩], rfl⟩
    · rw [if_neg h2]
      exact ⟨[], by simp⟩

theorem logindPhase_events_append (lines : List String) (m : Mem) (acc : LogindAcc) :
    ∃ tl, (logindPhase m lines acc).events = acc.events ++ tl := by
  induction lines generalizing acc with
  | nil => exact ⟨[], by simp [logindPhase]⟩
  | cons line rest ih =>
    obtain ⟨s, hs⟩ := processLogindLine_events_append m acc line
    obtain ⟨tl, htl⟩ := ih (processLogindLine m acc line)
    exact ⟨s ++ tl, by rw [logindPhase, htl, hs, List.append_assoc]⟩

theorem processLogindLine_step (m : Mem) (acc : LogindAcc) (line : String) (sid : String) :
    (sid ∈ acc.seenSessions →
      logoutSessionCount sid (processLogindLine m acc line).events
        = logoutSessionCount sid acc.events
      ∧ sid ∈ (processLogindLine m acc line).seenSessions)
    ∧ (sid ∉ acc.seenSessions →
        (logoutSessionCount sid (processLogindLine m acc line).events
            = logoutSessionCount sid acc.events
          ∧ sid ∉ (processLogindLine m acc line).seenSessions)
        ∨ (logoutSessionCount sid (processLogindLine m acc line).events
            = logoutSessionCount sid acc.events + 1
          ∧ sid ∈ (processLogindLine m acc line).seenSessions)) := by
  rw [processLogindLine]
  by_cases h1 : line ∈ acc.seenRaw
  · rw [if_pos h1]
    exact ⟨fun h => ⟨rfl, h⟩, fun h => Or.inl ⟨rfl, h⟩⟩
  · rw [if_neg h1]
    by_cases h2 : (strContains (lowerStr line) "session"
        && (strContains (lowerStr line) "logged out" || strContains (lowerStr line) "removed"
            || strContains (lowerStr line) "closed")) = true
    · rw [if_pos h2]
      cases hc : findSessionId (lowerStr line) with
      | some sid' =>
        simp only []
        by_cases h3 : sid' ∈ acc.seenSessions
        · rw [if_pos h3]
          exact ⟨fun h => ⟨rfl, h⟩, fun h => Or.inl ⟨rfl, h⟩⟩
        · rw [if_neg h3]
          by_cases h4 : sid' = sid
          · subst h4
            constructor
            · intro h
              exact absurd h h3
            · intro _
              refine Or.inr ⟨?_, by simp⟩
              rw [logoutSessionCount_append]
              simp [logoutSessionCount, hc]
            
          · constructor
            · intro h
              refine ⟨?_, by simp [h]⟩
              rw [logoutSessionCount_append]
              have : findSessionId (lowerStr line) ≠ some sid := by
                rw [hc]
                simp [h4]
              simp [logoutSessionCount, this]
            · intro h
              refine Or.inl ⟨?_, ?_⟩
              · rw [logoutSessionCount_append]
                have : findSessionId (lowerStr line) ≠ some sid := by
                  rw [hc]
                  simp [h4]
                simp [logoutSessionCount, this]
              · simp only [List.mem_append, List.mem_singleton]
                rintro (hmem | hmem)
                · exact h hmem
                · exact h4 hmem.symm
      | none =>
        have hne : findSessionId (lowerStr line) ≠ some sid := by
          rw [hc]
          exact Option.noConfusion
        constructor
        · intro h
          refine ⟨?_, h⟩
          rw [logoutSessionCount_append]
          simp [logoutSessionCount, hne]
        · intro h
          refine Or.inl ⟨?_, h⟩
          rw [logoutSessionCount_append]
          simp [logoutSessionCount, hne]
    · rw [if_neg h2]
      exact ⟨fun h => ⟨rfl, h⟩, fun h => Or.inl ⟨rfl, h⟩⟩

theorem logindPhase_count (sid : String) (lines : List String) (m : Mem) (acc : LogindAcc) :
    (sid ∈ acc.seenSessions →
      logoutSessionCount sid (logindPhase m lines acc).events
        = logoutSessionCount sid acc.events)
    ∧ (sid ∉ acc.seenSessions →
      logoutSessionCount sid (logindPhase m lines acc).events
        ≤ logoutSessionCount sid acc.events + 1) := by
  induction lines generalizing acc with
  | nil => exact ⟨fun _ => rfl, fun _ => Nat.le_succ _⟩
  | cons line rest ih =>
    constructor
    · intro h
      have hst := (processLogindLine_step m acc line sid).1 h
      rw [logindPhase, (ih (processLogindLine m acc line)).1 hst.2, hst.1]
    · intro h
      have hst := (processLogindLine_step m acc line sid).2 h
      rw [logindPhase]
      rcases hst with ⟨hc, hnotin⟩ | ⟨hc, hin⟩
      · have := (ih (processLogindLine m acc line)).2 hnotin
        rw [hc] at this
        exact this
      · rw [(ih (processLogindLine m acc line)).1 hin, hc]

/-- C6: in a collection window with no sshd logout, among the logind logout
lines embedding the same numeric session identifier only the first yields a
logout event (at most one event per session id); the pair
"Session 42 logged out" / "Removed session 42." produces exactly one logout
event, from the first line. -/
theorem C6_logind_session_dedup (m : Mem) (ssh_lines logind_lines : List String)
    (h : ¬ ∃ e ∈ (sshPhase ssh_lines ⟨m, false, [], []⟩).events, e.type = "logout") :
    (∀ sid : String,
      logoutSessionCount sid
        ((parse_journalctl_events m ssh_lines logind_lines).2.drop
          (sshPhase ssh_lines ⟨m, false, [], []⟩).events.length) ≤ 1)
    ∧ parse_journalctl_events ⟨none, none⟩ [] ["Session 42 logged out", "Removed session 42."]
        = (⟨none, none⟩, [⟨"logout", none, none, "Session 42 logged out"⟩]) := by
  have hsaw : (sshPhase ssh_lines ⟨m, false, [], []⟩).saw = false := by
    rcases hb : (sshPhase ssh_lines ⟨m, false, [], []⟩).saw
    · rfl
    · exact absurd ((sshPhase_saw_iff ssh_lines ⟨m, false, [], []⟩ (by simp)).mp hb) h
  refine ⟨?_, by decide⟩
  intro sid
  rw [parse_journalctl_events]
  simp only [hsaw, Bool.false_eq_true, if_false]
  obtain ⟨tl, htl⟩ := logindPhase_events_append logind_lines
    (sshPhase ssh_lines ⟨m, false, [], []⟩).mem
    ⟨(sshPhase ssh_lines ⟨m, false, [], []⟩).seenRaw, [],
      (sshPhase ssh_lines ⟨m, false, [], []⟩).events⟩
  have hle := (logindPhase_count sid logind_lines
    (sshPhase ssh_lines ⟨m, false, [], []⟩).mem
    ⟨(sshPhase ssh_lines ⟨m, false, [], []⟩).seenRaw, [],
      (sshPhase ssh_lines ⟨m, false, [], []⟩).events⟩).2 (by simp)
  rw [htl, logoutSessionCount_append] at hle
  simp only [] at htl ⊢
  rw [htl, drop_length_append]
  omega

/-- Witness for C6: the canonical two-line window produces exactly one logout
event and the per-session count is at most one. -/
theorem C6_witness :
    logoutSessionCount "42"
        ((parse_journalctl_events ⟨none, none⟩ []
            ["Session 42 logged out", "Removed session 42."]).2.drop
          (sshPhase [] ⟨⟨none, none⟩, false, [], []⟩).events.length) ≤ 1
    ∧ parse_journalctl_events ⟨none, none⟩ [] ["Session 42 logged out", "Removed session 42."]
        = (⟨none, none⟩, [⟨"logout", none, none, "Session 42 logged out"⟩]) :=
  ⟨(C6_logind_session_dedup ⟨none, none⟩ []
      ["Session 42 logged out", "Removed session 42."] (by decide)).1 "42",
   (C6_logind_session_dedup ⟨none, none⟩ []
      ["Session 42 logged out", "Removed session 42."] (by decide)).2⟩

/-- C7: classification follows the fixed priority failed > accepted >
session-termination: any line containing a failed-credential marker is
classified `failed_login` regardless of other markers, and a line containing
none of the kind markers yields no classification and no event. -/
theorem C7_classification_priority (line : String) :
    ((strContains (lowerStr line) "failed password"
        || strContains (lowerStr line) "invalid user") = true →
      classify_ssh_line line = some "failed_login")
    ∧ (strContains (lowerStr line) "failed password" = false →
      strContains (lowerStr line) "invalid user" = false →
      strContains (lowerStr line) "accepted password" = false →
      strContains (lowerStr line) "accepted publickey" = false →
      strContains (lowerStr line) "session closed for user" = false →
      strContains (lowerStr line) "disconnected from" = false →
      strContains (lowerStr line) "received disconnect" = false →
      strContains (lowerStr line) "session closed" = false →
      classify_ssh_line line = none
      ∧ ∀ acc : SshAcc, (processSshLine acc line).events = acc.events) := by
  constructor
  · intro h
    simp only [classify_ssh_line]
    rw [if_pos h]
  · intro h1 h2 h3 h4 h5 h6 h7 h8
    have hcl : classify_ssh_line line = none := by
      simp only [classify_ssh_line, h1, h2, h3, h4, h5, h6, h7, h8, Bool.or_self,
        Bool.false_eq_true, if_false]
    refine ⟨hcl, fun acc => ?_⟩
    rw [processSshLine]
    by_cases hseen : line ∈ acc.seenRaw
    · rw [if_pos hseen]
    · rw [if_neg hseen, hcl]

/-- Witness for C7: a failed-password line is classified `failed_login`; an
unrelated daemon line yields no classification. -/
theorem C7_witness :
    classify_ssh_line "Failed password for root from 10.0.0.9 port 22 ssh2"
        = some "failed_login"
    ∧ classify_ssh_line "polkitd started daemon version 121" = none :=
  ⟨(C7_classification_priority "Failed password for root from 10.0.0.9 port 22 ssh2").1
      (by decide),
   ((C7_classification_priority "polkitd started daemon version 121").2 (by decide)
      (by decide) (by decide) (by decide) (by decide) (by decide) (by decide) (by decide)).1⟩

/-! ## Windows agent (`win11agent.py`)

The OpenSSH message parser with its `USER_IP_RE` / `IP_RE` extraction, the
two collectors with their absent/loopback source-IP filter, and the
offset-checkpointed log-file tailer. -/

/-- Case-insensitive literal prefix test (for `re.IGNORECASE`); `pat` is
given in lowercase. -/
def lcIsPrefixOf (pat : List Char) (l : List Char) : Bool :=
  pat.isPrefixOf ((l.take pat.length).map Char.toLower)

/-- `USER_IP_RE = for\s+(\S+)\s+from\s+((\d{1,3}\.){3}\d{1,3})` (IGNORECASE)
anchored at the start of `l`.  Every quantified run is forced maximal by the
following pattern element, so the scan is deterministic. -/
def matchUserIpAt (l : List Char) : Option (String × String) :=
  if lcIsPrefixOf "for".toList l then
    let r1 := l.drop 3
    let ws1 := r1.takeWhile Char.isWhitespace
    let r2 := r1.drop ws1.length
    let tok := r2.takeWhile (fun c => !c.isWhitespace)
    let r3 := r2.drop tok.length
    let ws2 := r3.takeWhile Char.isWhitespace
    let r4 := r3.drop ws2.length
    if !ws1.isEmpty && !tok.isEmpty && !ws2.isEmpty && lcIsPrefixOf "from".toList r4 then
      let r5 := r4.drop 4
      let ws3 := r5.takeWhile Char.isWhitespace
      let r6 := r5.drop ws3.length
      if !ws3.isEmpty then
        match matchIpAt r6 with
        | some ip => some (String.mk tok, ip)
        | none => none
      else none
    else none
  else none

/-- `USER_IP_RE.search(msg)`. -/
def userIpSearch (msg : String) : Option (String × String) :=
  scanFind matchUserIpAt msg.toList

/-- `parse_openssh_message` (lines 102-126): classify by markers, then try
`USER_IP_RE`, falling back to the first IPv4-shaped token. -/
def parse_openssh_message (msg : String) : Option (String × Option String × Option String) :=
  let lower := lowerStr msg
  let etype? : Option String :=
    if strContains lower "failed password" || strContains lower "invalid user" then
      some "failed_login"
    else if strContains lower "accepted password" || strContains lower "accepted publickey" then
      some "successful_login"
    else if strContains lower "disconnected from" || strContains lower "connection closed"
        || strContains lower "session closed" then
      some "logout"
    else none
  match etype? with
  | none => none
  | some etype =>
    match userIpSearch msg with
    | some (u, ip) => some (etype, some u, some ip)
    | none =>
      match extract_ip msg with
      | some ip => some (etype, none, some ip)
      | none => some (etype, none, none)

/-- One emitted Windows auth event (the `timestamp` field, a formatted wall
clock, is omitted). -/
structure WEvent where
  type : String
  src_ip : Option String
  username : Option String
  raw : String
deriving DecidableEq

/-- One `Get-WinEvent` row as consumed: `RecordId` and `Message`. -/
structure WinRecord where
  recordId : Option Nat
  message : String
deriving DecidableEq

/-- The row loop of `collect_from_openssh_operational` (lines 140-172):
record-id dedup against `SEEN_OPENSSH_RECORDS`, parse, and the
absent/loopback source-IP filter. -/
def collect_openssh_go : List WinRecord → List Nat → List WEvent → List Nat × List WEvent
  | [], seen, evs => (seen, evs)
  | r :: rest, seen, evs =>
    match r.recordId with
    | none => collect_openssh_go rest seen evs
    | some rid =>
      if rid ∈ seen then collect_openssh_go rest seen evs
      else
        if trimStr r.message = "" then collect_openssh_go rest (seen ++ [rid]) evs
        else
          match parse_openssh_message (trimStr r.message) with
          | none => collect_openssh_go rest (seen ++ [rid]) evs
          | some (etype, username, src_ip) =>
            match src_ip with
            | none => collect_openssh_go rest (seen ++ [rid]) evs
            | some ip =>
              if ip = "" ∨ ip = "127.0.0.1" ∨ ip = "::1" then
                collect_openssh_go rest (seen ++ [rid]) evs
              else
                collect_openssh_go rest (seen ++ [rid])
                  (evs ++ [⟨etype, some ip, username, trimStr r.message⟩])

/-- `collect_from_openssh_operational`: returns the updated seen-record set
and the emitted events. -/
def collect_from_openssh_operational (seen : List Nat) (rows : List WinRecord) :
    List Nat × List WEvent :=
  collect_openssh_go rows seen []

/-- The line loop of `collect_from_sshd_logfile` (lines 217-230): parse each
tailed line and apply the same absent/loopback source-IP filter. -/
def collect_sshd_go : List String → List WEvent → List WEvent
  | [], evs => evs
  | ln :: rest, evs =>
    match parse_openssh_message ln with
    | none => collect_sshd_go rest evs
    | some (etype, username, src_ip) =>
      match src_ip with
      | none => collect_sshd_go rest evs
      | some ip =>
        if ip = "" ∨ ip = "127.0.0.1" ∨ ip = "::1" then collect_sshd_go rest evs
        else collect_sshd_go rest (evs ++ [⟨etype, some ip, username, ln⟩])

/-- `collect_from_sshd_logfile` applied to the lines the tailer returned. -/
def collect_from_sshd_logfile (lines : List String) : List WEvent :=
  collect_sshd_go lines []

theorem collect_openssh_go_ips (rows : List WinRecord) :
    ∀ (seen : List Nat) (evs : List WEvent),
      (∀ e ∈ evs, ∃ ip, e.src_ip = some ip ∧ ip ≠ "" ∧ ip ≠ "127.0.0.1" ∧ ip ≠ "::1") →
      ∀ e ∈ (collect_openssh_go rows seen evs).2,
        ∃ ip, e.src_ip = some ip ∧ ip ≠ "" ∧ ip ≠ "127.0.0.1" ∧ ip ≠ "::1" := by
  induction rows with
  | nil => intro seen evs h e he; exact h e he
  | cons r rest ih =>
    intro seen evs h e he
    rw [collect_openssh_go] at he
    cases hrid : r.recordId with
    | none =>
      rw [hrid] at he
      simp only [] at he
      exact ih _ _ h e he
    | some rid =>
      rw [hrid] at he
      simp only [] at he
      by_cases h1 : rid ∈ seen
      · rw [if_pos h1] at he
        exact ih _ _ h e he
      · rw [if_neg h1] at he
        by_cases h2 : trimStr r.message = ""
        · rw [if_pos h2] at he
          exact ih _ _ h e he
        · rw [if_neg h2] at he
          cases hp : parse_openssh_message (trimStr r.message) with
          | none =>
            rw [hp] at he
            simp only [] at he
            exact ih _ _ h e he
          | some trip =>
            obtain ⟨etype, username, src_ip⟩ := trip
            rw [hp] at he
            simp only [] at he
            cases src_ip with
            | none => exact ih _ _ h e he
            | some ip =>
              simp only [] at he
              by_cases h3 : ip = "" ∨ ip = "127.0.0.1" ∨ ip = "::1"
              · rw [if_pos h3] at he
                exact ih _ _ h e he
              · rw [if_neg h3] at he
                push_neg at h3
                refine ih _ _ ?_ e he
                intro e' he'
                rcases List.mem_append.mp he' with hm | hm
                · exact h e' hm
                · rw [List.mem_singleton] at hm
                  subst hm
                  exact ⟨ip, rfl, h3.1, h3.2.1, h3.2.2⟩

theorem collect_sshd_go_ips (lines : List String) :
    ∀ (evs : List WEvent),
      (∀ e ∈ evs, ∃ ip, e.src_ip = some ip ∧ ip ≠ "" ∧ ip ≠ "127.0.0.1" ∧ ip ≠ "::1") →
      ∀ e ∈ collect_sshd_go lines evs,
        ∃ ip, e.src_ip = some ip ∧ ip ≠ "" ∧ ip ≠ "127.0.0.1" ∧ ip ≠ "::1" := by
  induction lines with
  | nil => intro evs h e he; exact h e he
  | cons ln rest ih =>
    intro evs h e he
    rw [collect_sshd_go] at he
    cases hp : parse_openssh_message ln with
    | none =>
      rw [hp] at he
      simp only [] at he
      exact ih _ h e he
    | some trip =>
      obtain ⟨etype, username, src_ip⟩ := trip
      rw [hp] at he
      simp only [] at he
      cases src_ip with
      | none => exact ih _ h e he
      | some ip =>
        simp only [] at he
        by_cases h3 : ip = "" ∨ ip = "127.0.0.1" ∨ ip = "::1"
        · rw [if_pos h3] at he
          exact ih _ h e he
        · rw [if_neg h3] at he
          push_neg at h3
          refine ih _ ?_ e he
          intro e' he'
          rcases List.mem_append.mp he' with hm | hm
          · exact h e' hm
          · rw [List.mem_singleton] at hm
            subst hm
            exact ⟨ip, rfl, h3.1, h3.2.1, h3.2.2⟩

/-- C10: the Windows agent never emits an auth event whose source IP is
absent, empty or loopback: every event produced by either collector carries
a non-loopback IP, and a record/line whose parse yields no IP or a loopback
IP produces no event at all. -/
theorem C10_windows_loopback_filter :
    (∀ (seen : List Nat) (rows : List WinRecord) (e : WEvent),
      e ∈ (collect_from_openssh_operational seen rows).2 →
      ∃ ip, e.src_ip = some ip ∧ ip ≠ "" ∧ ip ≠ "127.0.0.1" ∧ ip ≠ "::1")
    ∧ (∀ (lines : List String) (e : WEvent),
      e ∈ collect_from_sshd_logfile lines →
      ∃ ip, e.src_ip = some ip ∧ ip ≠ "" ∧ ip ≠ "127.0.0.1" ∧ ip ≠ "::1")
    ∧ (∀ (ln t : String) (u : Option String),
      parse_openssh_message ln = some (t, u, none) → collect_from_sshd_logfile [ln] = [])
    ∧ (∀ (ln t : String) (u : Option String) (ip : String),
      parse_openssh_message ln = some (t, u, some ip) → ip = "127.0.0.1" ∨ ip = "::1" →
      collect_from_sshd_logfile [ln] = []) := by
  refine ⟨?_, ?_, ?_, ?_⟩
  · intro seen rows e he
    exact collect_openssh_go_ips rows seen [] (by simp) e he
  · intro lines e he
    exact collect_sshd_go_ips lines [] (by simp) e he
  · intro ln t u hp
    rw [collect_from_sshd_logfile, collect_sshd_go, hp]
    rfl
  · intro ln t u ip hp hloop
    rw [collect_from_sshd_logfile, collect_sshd_go, hp]
    simp only []
    rw [if_pos (Or.inr hloop)]
    rfl

/-- Witness for C10: a failed-password record from `10.10.1.7` is emitted
with that IP, which is neither empty nor loopback. -/
theorem C10_witness :
    ∃ ip, (WEvent.mk "failed_login" (some "10.10.1.7") (some "root")
        "Failed password for root from 10.10.1.7 port 22").src_ip = some ip
      ∧ ip ≠ "" ∧ ip ≠ "127.0.0.1" ∧ ip ≠ "::1" :=
  C10_windows_loopback_filter.1 [] [⟨some 1, "Failed password for root from 10.10.1.7 port 22"⟩]
    ⟨"failed_login", some "10.10.1.7", some "root",
      "Failed password for root from 10.10.1.7 port 22"⟩ (by decide)

/-- The file system as `read_file_new_lines` sees it: whether the monitored
log file exists, its byte content (decoded permissively, modelled as
characters), and the persisted offset of the state file (`none` when no
state file exists, in which case the offset defaults to 0). -/
structure FileSys where
  fileExists : Bool
  content : List Char
  stateOffset : Option Nat
deriving DecidableEq

/-- Python `str.splitlines()` restricted to `\n` terminators (the only ones
occurring in the tailed log; any extra empty pieces are removed by the
strip-and-filter step that follows). -/
def splitNl : List Char → List (List Char)
  | [] => [[]]
  | c :: rest =>
    if c = '\n' then [] :: splitNl rest
    else
      match splitNl rest with
      | [] => [[c]]
      | h :: t => (c :: h) :: t

/-- `[ln.strip() for ln in text.splitlines() if ln.strip()]`. -/
def chunkLines (chunk : List Char) : List String :=
  ((((splitNl chunk).map trimL).filter (fun l => l ≠ [])).map String.mk)

/-- `read_file_new_lines` (lines 185-207): if the file is missing return no
lines without touching the state; otherwise seek to the stored offset, read
to the end, persist the new position (`f.tell()` — the end of file, or the
stored offset itself when it already lies beyond the end), and return the
stripped non-empty lines. -/
def read_file_new_lines (fs : FileSys) : List String × FileSys :=
  if fs.fileExists then
    (chunkLines (fs.content.drop (fs.stateOffset.getD 0)),
     { fs with stateOffset := some (max (fs.stateOffset.getD 0) fs.content.length) })
  else ([], fs)

/-- C8: tailing the same unchanged file twice returns no lines on the second
read, and a missing file yields no lines and leaves the persisted offset
untouched. -/
theorem C8_offset_checkpoint (fs : FileSys) :
    (read_file_new_lines (read_file_new_lines fs).2).1 = []
    ∧ (fs.fileExists = false → read_file_new_lines fs = ([], fs)) := by
  constructor
  · cases hex : fs.fileExists with
    | false =>
      have h1 : read_file_new_lines fs = ([], fs) := by
        rw [read_file_new_lines, hex]
        rfl
      rw [h1, read_file_new_lines, hex]
      rfl
    | true =>
      have h1 : (read_file_new_lines fs).2
          = { fs with stateOffset := some (max (fs.stateOffset.getD 0) fs.content.length) } := by
        rw [read_file_new_lines, hex]
        rfl
      rw [h1, read_file_new_lines]
      simp only [hex, if_true]
      have hdrop : fs.content.drop (max (fs.stateOffset.getD 0) fs.content.length) = [] :=
        List.drop_eq_nil_of_le (le_max_right _ _)
      simp only [Option.getD_some]
      rw [hdrop]
      rfl
  · intro h
    rw [read_file_new_lines, h]
    rfl

/-- Witness for C8: a missing file returns no lines and keeps the stored
offset 7. -/
theorem C8_witness :
    read_file_new_lines ⟨false, "old content".toList, some 7⟩
      = ([], ⟨false, "old content".toList, some 7⟩) :=
  (C8_offset_checkpoint ⟨false, "old content".toList, some 7⟩).2 rfl
